import Mathlib

/-!
Verification of the wine-classification HTTP service (`src/main.py`).

The service validates a 13-field numeric payload (pydantic model
`WineFeatures`), arranges the values into a fixed-order vector, consults a
RandomForest model trained once at startup with fixed seeds, and returns
either a successful prediction body or an HTTP error.

Embedding conventions:
  * Python floats are modelled by `FloatVal`: a finite rational or one of
    the non-finite values NaN / +inf / -inf.  The service performs no real
    arithmetic on feature values, so exact rationals are faithful.
  * The JSON request body is an association list `List (String × Json)`.
  * The fitted scikit-learn model is opaque to the service; it is embedded
    as a record `Model` of two fallible functions, and the library's
    documented guarantees for a forest fitted on the 3-class wine dataset
    (classes {0,1,2}; probabilities non-negative and summing to 1; inputs
    containing NaN/inf rejected with a ValueError) are captured by the
    predicate `SklearnModel`.
  * The `try/except` body of `predict_wine` becomes an `Except String`
    computation; the handler converts an error into an HTTP 500 response
    with the exception's text, as the source does via `HTTPException`.
-/

/-- A Python float value: finite (exact rational) or non-finite. -/
inductive FloatVal where
  | finite (q : ℚ)
  | nan
  | inf
  | neginf
deriving DecidableEq

/-- Finiteness of a Python float value. -/
def FloatVal.isFinite : FloatVal → Bool
  | .finite _ => true
  | _ => false

/-- A JSON value as delivered by the request body.  `num` carries a
`FloatVal` because Python's `json` parser also accepts the non-standard
literals `NaN`, `Infinity` and `-Infinity`. -/
inductive Json where
  | num (v : FloatVal)
  | str (s : String)
  | bool (b : Bool)
  | null
deriving DecidableEq

/-- Split a character list on a separator (list analogue of `splitOn`). -/
def splitOnChar (c : Char) : List Char → List (List Char)
  | [] => [[]]
  | x :: xs =>
      let r := splitOnChar c xs
      if x = c then [] :: r
      else
        match r with
        | [] => [[x]]
        | h :: t => (x :: h) :: t

/-- Value of a non-empty all-digit character list. -/
def natOfDigits (l : List Char) : Option Nat :=
  if l.isEmpty then none
  else if l.all Char.isDigit then
    some (l.foldl (fun n c => 10 * n + (c.toNat - 48)) 0)
  else none

/-- Mantissa of a Python float literal: digits with at most one point,
at least one digit overall (`"1"`, `"1.5"`, `".5"`, `"1."`). -/
def parseMantissa (l : List Char) : Option ℚ :=
  match splitOnChar '.' l with
  | [i] => (natOfDigits i).map fun n => (n : ℚ)
  | [i, f] =>
      if i.isEmpty && f.isEmpty then none
      else
        let iv := if i.isEmpty then some 0 else natOfDigits i
        let fv := if f.isEmpty then some 0 else natOfDigits f
        match iv, fv with
        | some a, some b => some ((a : ℚ) + (b : ℚ) / (10 : ℚ) ^ f.length)
        | _, _ => none
  | _ => none

/-- Exponent part of a float literal: optional sign, then digits. -/
def parseExponent (l : List Char) : Option ℤ :=
  match l with
  | '-' :: rest => (natOfDigits rest).map fun n => -(n : ℤ)
  | '+' :: rest => (natOfDigits rest).map fun n => (n : ℤ)
  | rest => (natOfDigits rest).map fun n => (n : ℤ)

/-- A finite numeric literal accepted by Python's `float(...)` (already
lower-cased): optional sign, mantissa, optional exponent. -/
def parseNumeric (l : List Char) : Option ℚ :=
  let (neg, t) :=
    match l with
    | '-' :: rest => (true, rest)
    | '+' :: rest => (false, rest)
    | rest => (false, rest)
  let signed : ℚ → ℚ := fun q => if neg then -q else q
  match splitOnChar 'e' t with
  | [m] => (parseMantissa m).map signed
  | [m, e] =>
      match parseMantissa m, parseExponent e with
      | some q, some ex => some (signed q * (10 : ℚ) ^ ex)
      | _, _ => none
  | _ => none

/-- Strip leading and trailing whitespace from a character list. -/
def trimChars (l : List Char) : List Char :=
  ((l.dropWhile Char.isWhitespace).reverse.dropWhile Char.isWhitespace).reverse

/-- Python's `float(str)` conversion: strips whitespace, accepts the
case-insensitive special names nan/inf/infinity with optional sign, or a
finite numeric literal. -/
def parseFloatString (s : String) : Option FloatVal :=
  let t := (trimChars s.data).map Char.toLower
  if t = "nan".data || t = "+nan".data || t = "-nan".data then some .nan
  else if t = "inf".data || t = "+inf".data || t = "infinity".data || t = "+infinity".data then
    some .inf
  else if t = "-inf".data || t = "-infinity".data then some .neginf
  else (parseNumeric t).map .finite

/-- Pydantic coercion of a JSON value to a `float` field: numbers pass
through, strings go through `float(str)`, booleans coerce (Python bools are
ints), `null` is rejected. -/
def coerceFloat : Json → Option FloatVal
  | .num v => some v
  | .str s => parseFloatString s
  | .bool b => some (.finite (if b then 1 else 0))
  | .null => none

/-- The validated request schema (`class WineFeatures(BaseModel)`,
src/main.py lines 26-39): 13 required float fields. -/
structure WineFeatures where
  alcohol : FloatVal
  malic_acid : FloatVal
  ash : FloatVal
  alcalinity_of_ash : FloatVal
  magnesium : FloatVal
  total_phenols : FloatVal
  flavanoids : FloatVal
  nonflavanoid_phenols : FloatVal
  proanthocyanins : FloatVal
  color_intensity : FloatVal
  hue : FloatVal
  od280_od315_of_diluted_wines : FloatVal
  proline : FloatVal
deriving DecidableEq

/-- The 13 required field names, in the schema's declaration order. -/
def requiredFields : List String :=
  ["alcohol", "malic_acid", "ash", "alcalinity_of_ash", "magnesium",
   "total_phenols", "flavanoids", "nonflavanoid_phenols", "proanthocyanins",
   "color_intensity", "hue", "od280_od315_of_diluted_wines", "proline"]

/-- Dictionary lookup in the request body (first binding wins; JSON object
keys are unique). -/
def dictGet (payload : List (String × Json)) (name : String) : Option Json :=
  match payload with
  | [] => none
  | (k, v) :: rest => if k = name then some v else dictGet rest name

/-- Extract one required field: present and coercible to float. -/
def getField (payload : List (String × Json)) (name : String) : Option FloatVal :=
  (dictGet payload name).bind coerceFloat

/-- Pydantic validation of the request body against `WineFeatures`: every
required field must be present and coercible to a float; unknown extra
fields are ignored (pydantic's default).  `none` is surfaced by the
framework as an HTTP 422 response before the handler runs. -/
def validate (payload : List (String × Json)) : Option WineFeatures :=
  (getField payload "alcohol").bind fun alcohol =>
  (getField payload "malic_acid").bind fun malic_acid =>
  (getField payload "ash").bind fun ash =>
  (getField payload "alcalinity_of_ash").bind fun alcalinity_of_ash =>
  (getField payload "magnesium").bind fun magnesium =>
  (getField payload "total_phenols").bind fun total_phenols =>
  (getField payload "flavanoids").bind fun flavanoids =>
  (getField payload "nonflavanoid_phenols").bind fun nonflavanoid_phenols =>
  (getField payload "proanthocyanins").bind fun proanthocyanins =>
  (getField payload "color_intensity").bind fun color_intensity =>
  (getField payload "hue").bind fun hue =>
  (getField payload "od280_od315_of_diluted_wines").bind fun od280_od315_of_diluted_wines =>
  (getField payload "proline").bind fun proline =>
  some { alcohol := alcohol, malic_acid := malic_acid, ash := ash,
         alcalinity_of_ash := alcalinity_of_ash, magnesium := magnesium,
         total_phenols := total_phenols, flavanoids := flavanoids,
         nonflavanoid_phenols := nonflavanoid_phenols,
         proanthocyanins := proanthocyanins, color_intensity := color_intensity,
         hue := hue,
         od280_od315_of_diluted_wines := od280_od315_of_diluted_wines,
         proline := proline }

/-- The fitted classifier, opaque to the service: `predict` and
`predict_proba` on a 13-dimensional input row.  Either call may raise
(modelled by `Except.error` carrying the exception's text), e.g. sklearn's
ValueError on non-finite input. -/
structure Model where
  predict : List FloatVal → Except String ℤ
  predict_proba : List FloatVal → Except String (List ℚ)

/-- The guarantees scikit-learn documents for a `RandomForestClassifier`
fitted on the 3-class wine dataset (spec §3: "3 discrete class labels
{0,1,2} plus a probability per class (probabilities non-negative, summing
to 1)"; sklearn rejects inputs containing NaN or infinity). -/
structure SklearnModel (m : Model) : Prop where
  predict_mem : ∀ X p, m.predict X = .ok p → p = 0 ∨ p = 1 ∨ p = 2
  predict_total : ∀ X, X.length = 13 → (∀ v ∈ X, v.isFinite = true) →
    ∃ p, m.predict X = .ok p
  proba_total : ∀ X, X.length = 13 → (∀ v ∈ X, v.isFinite = true) →
    ∃ ps, m.predict_proba X = .ok ps
  proba_len : ∀ X ps, m.predict_proba X = .ok ps → ps.length = 3
  proba_bounds : ∀ X ps, m.predict_proba X = .ok ps → ∀ q ∈ ps, 0 ≤ q ∧ q ≤ 1
  proba_sum : ∀ X ps, m.predict_proba X = .ok ps → ps.sum = 1
  predict_reject : ∀ X, (∃ v ∈ X, v.isFinite = false) → ∃ e, m.predict X = .error e
  proba_reject : ∀ X, (∃ v ∈ X, v.isFinite = false) → ∃ e, m.predict_proba X = .error e

/-- The input row built by `predict_wine` (src/main.py lines 47-52): the 13
validated values in the source's fixed order. -/
def featureVector (f : WineFeatures) : List FloatVal :=
  [f.alcohol, f.malic_acid, f.ash, f.alcalinity_of_ash,
   f.magnesium, f.total_phenols, f.flavanoids, f.nonflavanoid_phenols,
   f.proanthocyanins, f.color_intensity, f.hue,
   f.od280_od315_of_diluted_wines, f.proline]

/-- The order the model was trained on, as the spec lists it (§3: alcohol,
malic_acid, ash, alcalinity_of_ash, magnesium, total_phenols, flavanoids,
nonflavanoid_phenols, proanthocyanins, color_intensity, hue, the
diluted-wine ratio, proline).  Written from the spec's words, to be
compared with `featureVector`. -/
def specFeatureOrder (f : WineFeatures) : List FloatVal :=
  [f.alcohol, f.malic_acid, f.ash, f.alcalinity_of_ash, f.magnesium,
   f.total_phenols, f.flavanoids, f.nonflavanoid_phenols,
   f.proanthocyanins, f.color_intensity, f.hue,
   f.od280_od315_of_diluted_wines, f.proline]

/-- The class-index-to-label dictionary (src/main.py line 59):
`wine_types = {0: "Clase 0", 1: "Clase 1", 2: "Clase 2"}`. -/
def wine_types : List (ℤ × String) :=
  [(0, "Clase 0"), (1, "Clase 1"), (2, "Clase 2")]

/-- Python dict indexing `wine_types[k]`: `none` models a KeyError. -/
def dictIndex (d : List (ℤ × String)) (k : ℤ) : Option String :=
  match d with
  | [] => none
  | (k0, v) :: rest => if k0 = k then some v else dictIndex rest k

/-- A successful prediction body (src/main.py lines 61-65). -/
structure PredictionResult where
  prediction : ℤ
  probabilities : List (String × ℚ)
  message : String
deriving DecidableEq

/-- An HTTP response of the /predict endpoint: a 200 with a prediction
body, or an error status with a `detail` string (as FastAPI renders an
`HTTPException` or a validation failure). -/
inductive HttpResponse where
  | success (body : PredictionResult)
  | failure (status : ℕ) (detail : String)
deriving DecidableEq

/-- Status code of a response (FastAPI's default success status is 200). -/
def HttpResponse.status : HttpResponse → ℕ
  | .success _ => 200
  | .failure s _ => s

/-- A log entry: level and message (loguru `logger.info` / `logger.error`). -/
inductive LogLevel where
  | info
  | error
deriving DecidableEq

/-- The `{f"clase_{i}": float(prob) for i, prob in enumerate(probabilities)}`
comprehension of src/main.py line 63. -/
def enumProbs (ps : List ℚ) : List (String × ℚ) :=
  ps.enum.map fun ip => ("clase_" ++ toString ip.1, ip.2)

/-- The body of the `try:` block of `predict_wine` (src/main.py lines
44-68): build the input row, call `predict` and `predict_proba`, look the
predicted class up in `wine_types` (a missing key raises a KeyError whose
text is the key), and assemble the result. -/
def tryBody (m : Model) (features : WineFeatures) : Except String PredictionResult :=
  match m.predict (featureVector features) with
  | .error e => .error e
  | .ok prediction =>
      match m.predict_proba (featureVector features) with
      | .error e => .error e
      | .ok probabilities =>
          match dictIndex wine_types prediction with
          | none => .error (toString prediction)
          | some label =>
              .ok { prediction := prediction,
                    probabilities := enumProbs probabilities,
                    message := "Vino clasificado como: " ++ label }

/-- The /predict handler (src/main.py lines 41-72): run the try-block; on
success log at info level and return the result with status 200; on any
exception log at error level and return HTTP 500 with the exception's text
as `detail`. -/
def predict_wine (m : Model) (features : WineFeatures) :
    HttpResponse × List (LogLevel × String) :=
  match tryBody m features with
  | .ok result =>
      (.success result,
       [(.info, "Recibiendo predicción para características"),
        (.info, "Predicción exitosa")])
  | .error e =>
      (.failure 500 e,
       [(.info, "Recibiendo predicción para características"),
        (.error, "Error durante la predicción: " ++ e)])

/-- The full request pipeline for POST /predict: the framework validates
the body against `WineFeatures` first; on failure it answers 422 without
running the handler (so nothing is logged and the model is not consulted),
otherwise it runs `predict_wine`. -/
def handleRequest (m : Model) (payload : List (String × Json)) :
    HttpResponse × List (LogLevel × String) :=
  match validate payload with
  | none => (.failure 422 "Unprocessable Entity", [])
  | some features => predict_wine m features

/-- The /health handler (src/main.py lines 74-76): a constant; it takes no
input and reads neither the model nor the dataset. -/
def health_check : ℕ × List (String × String) :=
  (200, [("status", "ok")])

/-- The scikit-learn calls the startup code makes, abstracted: the wine
dataset, the train/test splitter and the forest fitter.  Each randomised
call receives the effective seed the library would use. -/
structure SkLib where
  load_wine : List (List ℚ) × List ℕ
  train_test_split : List (List ℚ) × List ℕ → ℚ → ℕ →
    (List (List ℚ) × List ℕ) × (List (List ℚ) × List ℕ)
  fitRandomForest : ℕ → ℕ → List (List ℚ) × List ℕ → Model

/-- The seed a scikit-learn call effectively uses: the `random_state`
argument when given, otherwise fresh process entropy. -/
def effectiveSeed (random_state : Option ℕ) (entropy : ℕ) : ℕ :=
  random_state.getD entropy

/-- Startup (src/main.py lines 18-24) in one process run: load the wine
data, split with `test_size=0.2, random_state=42`, fit a forest with
`n_estimators=100, random_state=42` on the training partition.  `entropy`
is the ambient randomness of that particular process run; the source pins
`random_state=42` in both calls. -/
def startup (lib : SkLib) (entropy : ℕ) : Model :=
  let data := lib.load_wine
  let split := lib.train_test_split data (2 / 10) (effectiveSeed (some 42) entropy)
  lib.fitRandomForest 100 (effectiveSeed (some 42) entropy) split.1

/-- A concrete classifier satisfying the scikit-learn contract, used to
instantiate theorems: it answers class 0 with probabilities [1, 0, 0] on
any finite 13-dimensional row and raises on anything else. -/
def constModel : Model where
  predict := fun X =>
    if X.length == 13 && X.all FloatVal.isFinite then .ok 0
    else .error "Input X contains NaN."
  predict_proba := fun X =>
    if X.length == 13 && X.all FloatVal.isFinite then .ok [1, 0, 0]
    else .error "Input X contains NaN."

/-- An example validated request: every measurement equal to 1.0. -/
def exampleFeatures : WineFeatures :=
  { alcohol := .finite 1, malic_acid := .finite 1, ash := .finite 1,
    alcalinity_of_ash := .finite 1, magnesium := .finite 1,
    total_phenols := .finite 1, flavanoids := .finite 1,
    nonflavanoid_phenols := .finite 1, proanthocyanins := .finite 1,
    color_intensity := .finite 1, hue := .finite 1,
    od280_od315_of_diluted_wines := .finite 1, proline := .finite 1 }

/-- `exampleFeatures` with a NaN alcohol value. -/
def nanFeatures : WineFeatures :=
  { exampleFeatures with alcohol := .nan }

/-- An example request body holding every required field as the JSON
number 1.0. -/
def goodPayload : List (String × Json) :=
  requiredFields.map fun n => (n, Json.num (.finite 1))

/-- `goodPayload` with the `alcohol` value replaced by the non-finite JSON
literal `NaN` (accepted by Python's json parser). -/
def nanPayload : List (String × Json) :=
  ("alcohol", Json.num .nan) :: (requiredFields.drop 1).map fun n => (n, Json.num (.finite 1))

/-- An example request body omitting `proline` (the spec's missing-field
example). -/
def missingProlinePayload : List (String × Json) :=
  (requiredFields.take 12).map fun n => (n, Json.num (.finite 1))

example : parseFloatString "high" = none := by decide
example : parseFloatString "NaN" = some .nan := by decide
example : coerceFloat Json.null = none := by rfl

/-- The constant classifier satisfies the scikit-learn contract. -/
theorem sklearn_constModel : SklearnModel constModel := by
  constructor
  · intro X p h
    simp only [constModel] at h
    split at h
    · exact Or.inl (by cases h; rfl)
    · cases h
  · intro X hlen hfin
    exact ⟨0, by simp [constModel]; exact ⟨hlen, hfin⟩⟩
  · intro X hlen hfin
    exact ⟨[1, 0, 0], by simp [constModel]; exact ⟨hlen, hfin⟩⟩
  · intro X ps h
    simp only [constModel] at h
    split at h
    · cases h; rfl
    · cases h
  · intro X ps h
    simp only [constModel] at h
    split at h
    · cases h
      intro q hq
      fin_cases hq <;> norm_num
    · cases h
  · intro X ps h
    simp only [constModel] at h
    split at h
    · cases h; simp
    · cases h
  · intro X hX
    refine ⟨"Input X contains NaN.", ?_⟩
    simp only [constModel]
    have hc : (X.length == 13 && X.all FloatVal.isFinite) = false := by
      obtain ⟨v, hv, hnf⟩ := hX
      simp [List.all_eq_true]
      exact fun _ => ⟨v, hv, by simp [hnf]⟩
    rw [hc]
    rfl
  · intro X hX
    refine ⟨"Input X contains NaN.", ?_⟩
    simp only [constModel]
    have hc : (X.length == 13 && X.all FloatVal.isFinite) = false := by
      obtain ⟨v, hv, hnf⟩ := hX
      simp [List.all_eq_true]
      exact fun _ => ⟨v, hv, by simp [hnf]⟩
    rw [hc]
    rfl

/-- A payload that validates has every required field present and
coercible. -/
theorem validate_fields_present (payload : List (String × Json)) (f : WineFeatures)
    (h : validate payload = some f) :
    ∀ name ∈ requiredFields, (getField payload name).isSome := by
  simp only [validate, Option.bind_eq_some, Option.some.injEq] at h
  obtain ⟨v1, h1, v2, h2, v3, h3, v4, h4, v5, h5, v6, h6, v7, h7, v8, h8, v9, h9,
    v10, h10, v11, h11, v12, h12, v13, h13, -⟩ := h
  intro name hname
  simp only [requiredFields, List.mem_cons, List.not_mem_nil, or_false] at hname
  rcases hname with rfl | rfl | rfl | rfl | rfl | rfl | rfl | rfl | rfl | rfl | rfl | rfl | rfl <;>
    simp [h1, h2, h3, h4, h5, h6, h7, h8, h9, h10, h11, h12, h13]

/-- Validation reads the payload only at the 13 required field names. -/
theorem validate_congr (p₁ p₂ : List (String × Json))
    (h : ∀ name ∈ requiredFields, getField p₁ name = getField p₂ name) :
    validate p₁ = validate p₂ := by
  have h1 := h "alcohol" (by simp [requiredFields])
  have h2 := h "malic_acid" (by simp [requiredFields])
  have h3 := h "ash" (by simp [requiredFields])
  have h4 := h "alcalinity_of_ash" (by simp [requiredFields])
  have h5 := h "magnesium" (by simp [requiredFields])
  have h6 := h "total_phenols" (by simp [requiredFields])
  have h7 := h "flavanoids" (by simp [requiredFields])
  have h8 := h "nonflavanoid_phenols" (by simp [requiredFields])
  have h9 := h "proanthocyanins" (by simp [requiredFields])
  have h10 := h "color_intensity" (by simp [requiredFields])
  have h11 := h "hue" (by simp [requiredFields])
  have h12 := h "od280_od315_of_diluted_wines" (by simp [requiredFields])
  have h13 := h "proline" (by simp [requiredFields])
  unfold validate
  rw [h1, h2, h3, h4, h5, h6, h7, h8, h9, h10, h11, h12, h13]

/-- Lookup ignores an appended tail when the head already binds the name. -/
theorem dictGet_append_of_some (p extra : List (String × Json)) (name : String)
    (j : Json) (h : dictGet p name = some j) :
    dictGet (p ++ extra) name = some j := by
  induction p with
  | nil => cases h
  | cons kv rest ih =>
      obtain ⟨k, v⟩ := kv
      simp only [dictGet, List.cons_append] at h ⊢
      split at h
      · simp [*] at h ⊢
      · simp only [*, if_false]
        exact ih h

/-- Lookup falls through to the appended tail when the head lacks the
name. -/
theorem dictGet_append_of_none (p extra : List (String × Json)) (name : String)
    (h : dictGet p name = none) :
    dictGet (p ++ extra) name = dictGet extra name := by
  induction p with
  | nil => rfl
  | cons kv rest ih =>
      obtain ⟨k, v⟩ := kv
      simp only [dictGet, List.cons_append] at h ⊢
      split at h
      · cases h
      · simp only [*, if_false]
        exact ih h

/-- A payload whose 13 required fields are all present and coercible
validates. -/
theorem validate_isSome_of_present (p : List (String × Json))
    (h : ∀ name ∈ requiredFields, (getField p name).isSome) :
    (validate p).isSome := by
  obtain ⟨v1, h1⟩ := Option.isSome_iff_exists.mp (h "alcohol" (by simp [requiredFields]))
  obtain ⟨v2, h2⟩ := Option.isSome_iff_exists.mp (h "malic_acid" (by simp [requiredFields]))
  obtain ⟨v3, h3⟩ := Option.isSome_iff_exists.mp (h "ash" (by simp [requiredFields]))
  obtain ⟨v4, h4⟩ := Option.isSome_iff_exists.mp (h "alcalinity_of_ash" (by simp [requiredFields]))
  obtain ⟨v5, h5⟩ := Option.isSome_iff_exists.mp (h "magnesium" (by simp [requiredFields]))
  obtain ⟨v6, h6⟩ := Option.isSome_iff_exists.mp (h "total_phenols" (by simp [requiredFields]))
  obtain ⟨v7, h7⟩ := Option.isSome_iff_exists.mp (h "flavanoids" (by simp [requiredFields]))
  obtain ⟨v8, h8⟩ :=
    Option.isSome_iff_exists.mp (h "nonflavanoid_phenols" (by simp [requiredFields]))
  obtain ⟨v9, h9⟩ := Option.isSome_iff_exists.mp (h "proanthocyanins" (by simp [requiredFields]))
  obtain ⟨v10, h10⟩ := Option.isSome_iff_exists.mp (h "color_intensity" (by simp [requiredFields]))
  obtain ⟨v11, h11⟩ := Option.isSome_iff_exists.mp (h "hue" (by simp [requiredFields]))
  obtain ⟨v12, h12⟩ :=
    Option.isSome_iff_exists.mp (h "od280_od315_of_diluted_wines" (by simp [requiredFields]))
  obtain ⟨v13, h13⟩ := Option.isSome_iff_exists.mp (h "proline" (by simp [requiredFields]))
  unfold validate
  rw [h1, h2, h3, h4, h5, h6, h7, h8, h9, h10, h11, h12, h13]
  rfl

/-- When every required field holds a finite value, validation succeeds
and the resulting input row is finite throughout. -/
theorem validate_finite_of_finite_fields (p : List (String × Json))
    (h : ∀ name ∈ requiredFields, ∃ v, getField p name = some v ∧ v.isFinite = true) :
    ∃ f, validate p = some f ∧ ∀ v ∈ featureVector f, v.isFinite = true := by
  obtain ⟨v1, h1, g1⟩ := h "alcohol" (by simp [requiredFields])
  obtain ⟨v2, h2, g2⟩ := h "malic_acid" (by simp [requiredFields])
  obtain ⟨v3, h3, g3⟩ := h "ash" (by simp [requiredFields])
  obtain ⟨v4, h4, g4⟩ := h "alcalinity_of_ash" (by simp [requiredFields])
  obtain ⟨v5, h5, g5⟩ := h "magnesium" (by simp [requiredFields])
  obtain ⟨v6, h6, g6⟩ := h "total_phenols" (by simp [requiredFields])
  obtain ⟨v7, h7, g7⟩ := h "flavanoids" (by simp [requiredFields])
  obtain ⟨v8, h8, g8⟩ := h "nonflavanoid_phenols" (by simp [requiredFields])
  obtain ⟨v9, h9, g9⟩ := h "proanthocyanins" (by simp [requiredFields])
  obtain ⟨v10, h10, g10⟩ := h "color_intensity" (by simp [requiredFields])
  obtain ⟨v11, h11, g11⟩ := h "hue" (by simp [requiredFields])
  obtain ⟨v12, h12, g12⟩ := h "od280_od315_of_diluted_wines" (by simp [requiredFields])
  obtain ⟨v13, h13, g13⟩ := h "proline" (by simp [requiredFields])
  refine ⟨_, by unfold validate; rw [h1, h2, h3, h4, h5, h6, h7, h8, h9, h10, h11, h12, h13]; rfl,
    ?_⟩
  intro v hv
  simp only [featureVector, List.mem_cons, List.not_mem_nil, or_false] at hv
  rcases hv with rfl | rfl | rfl | rfl | rfl | rfl | rfl | rfl | rfl | rfl | rfl | rfl | rfl <;>
    assumption

/-- The values of the probability dictionary are exactly the model's
probabilities, in order. -/
theorem enumProbs_map_snd (ps : List ℚ) : (enumProbs ps).map Prod.snd = ps := by
  simp only [enumProbs, List.map_map]
  have : (Prod.snd ∘ fun ip : ℕ × ℚ => ("clase_" ++ toString ip.1, ip.2)) = Prod.snd := rfl
  rw [this, List.enum_map_snd]

/-- The probability dictionary has one entry per class. -/
theorem enumProbs_length (ps : List ℚ) : (enumProbs ps).length = ps.length := by
  simp [enumProbs]

/-- C7: the health operation unconditionally returns `{"status": "ok"}`
with success status 200; `health_check` is a constant that takes no input,
so it is the same for every call and reads neither the model nor the
dataset. -/
theorem health_check_constant_ok : health_check = (200, [("status", "ok")]) := rfl

/-- C5: two process runs with the source's fixed training seed
(`random_state=42` in both the split and the forest) produce the same
fitted model whatever ambient entropy each run has, hence identical
responses — identical prediction and identical probabilities — for the
same feature payload. -/
theorem same_seed_same_response (lib : SkLib) (e₁ e₂ : ℕ)
    (payload : List (String × Json)) :
    handleRequest (startup lib e₁) payload = handleRequest (startup lib e₂) payload := rfl

/-- C4: the handler arranges the 13 validated values into exactly the
spec's fixed order before invoking the model — `featureVector` equals the
spec's order, and the handler's response depends on the model only through
its answers at that ordered vector. -/
theorem feature_order_matches_spec :
    (∀ f : WineFeatures, featureVector f = specFeatureOrder f) ∧
    ∀ (m₁ m₂ : Model) (f : WineFeatures),
      m₁.predict (specFeatureOrder f) = m₂.predict (specFeatureOrder f) →
      m₁.predict_proba (specFeatureOrder f) = m₂.predict_proba (specFeatureOrder f) →
      predict_wine m₁ f = predict_wine m₂ f := by
  refine ⟨fun f => rfl, ?_⟩
  intro m₁ m₂ f h1 h2
  have hv : featureVector f = specFeatureOrder f := rfl
  simp only [predict_wine, tryBody, hv, h1, h2]

/-- C4 witness: the order equation and the model-independence conclusion at
a concrete model and input. -/
theorem feature_order_matches_spec_witness :
    featureVector exampleFeatures = specFeatureOrder exampleFeatures ∧
    predict_wine constModel exampleFeatures = predict_wine constModel exampleFeatures :=
  ⟨feature_order_matches_spec.1 exampleFeatures,
   feature_order_matches_spec.2 constModel constModel exampleFeatures rfl rfl⟩

/-- C3: whenever any exception is raised while computing a prediction
(any error of the try-block), the handler catches it, logs it at error
level, and returns HTTP 500 with the exception's text as the `detail`
body — no retry, no partial result. -/
theorem inference_exception_500 (m : Model) (f : WineFeatures) (e : String)
    (h : tryBody m f = .error e) :
    predict_wine m f =
      (HttpResponse.failure 500 e,
       [(LogLevel.info, "Recibiendo predicción para características"),
        (LogLevel.error, "Error durante la predicción: " ++ e)]) := by
  simp [predict_wine, h]

/-- C3 witness: the constant model raises on a NaN input row and the
handler answers 500 with that exception's text. -/
theorem inference_exception_500_witness :
    predict_wine constModel nanFeatures =
      (HttpResponse.failure 500 "Input X contains NaN.",
       [(LogLevel.info, "Recibiendo predicción para características"),
        (LogLevel.error, "Error durante la predicción: " ++ "Input X contains NaN.")]) :=
  inference_exception_500 constModel nanFeatures "Input X contains NaN." rfl

/-- C6: every successful /predict response carries a message derived from
the predicted class index through the `wine_types` lookup; in particular a
class-0 prediction yields the message referencing "Clase 0". -/
theorem message_labels_prediction (m : Model) (f : WineFeatures)
    (body : PredictionResult) (logs : List (LogLevel × String))
    (h : predict_wine m f = (HttpResponse.success body, logs)) :
    (∃ label, dictIndex wine_types body.prediction = some label ∧
        body.message = "Vino clasificado como: " ++ label) ∧
    (body.prediction = 0 → body.message = "Vino clasificado como: Clase 0") := by
  have htry : tryBody m f = .ok body := by
    cases htb : tryBody m f with
    | error e => simp [predict_wine, htb] at h
    | ok r =>
        simp only [predict_wine, htb, Prod.mk.injEq, HttpResponse.success.injEq] at h
        rw [h.1]
  cases hp : m.predict (featureVector f) with
  | error e => simp [tryBody, hp] at htry
  | ok p =>
    cases hps : m.predict_proba (featureVector f) with
    | error e => simp [tryBody, hp, hps] at htry
    | ok ps =>
      cases hl : dictIndex wine_types p with
      | none => simp [tryBody, hp, hps, hl] at htry
      | some label =>
          simp only [tryBody, hp, hps, hl, Except.ok.injEq] at htry
          subst htry
          refine ⟨⟨label, hl, rfl⟩, ?_⟩
          intro h0
          have h0' : p = 0 := h0
          subst h0'
          have hl' : (some "Clase 0" : Option String) = some label := hl
          cases hl'
          rfl

/-- C6 witness: a concrete successful response of the constant model. -/
theorem message_labels_prediction_witness :
    (∃ label, dictIndex wine_types
        (PredictionResult.mk 0 (enumProbs [1, 0, 0]) "Vino clasificado como: Clase 0").prediction =
          some label ∧
        (PredictionResult.mk 0 (enumProbs [1, 0, 0]) "Vino clasificado como: Clase 0").message =
          "Vino clasificado como: " ++ label) ∧
    ((PredictionResult.mk 0 (enumProbs [1, 0, 0]) "Vino clasificado como: Clase 0").prediction = 0 →
      (PredictionResult.mk 0 (enumProbs [1, 0, 0]) "Vino clasificado como: Clase 0").message =
        "Vino clasificado como: Clase 0") :=
  message_labels_prediction constModel exampleFeatures
    (PredictionResult.mk 0 (enumProbs [1, 0, 0]) "Vino clasificado como: Clase 0")
    [(LogLevel.info, "Recibiendo predicción para características"),
     (LogLevel.info, "Predicción exitosa")] rfl

/-- C8: the class-index-to-label lookup is defined exactly on the keys
{0,1,2}, and the handler is nevertheless total over validated inputs: for
any model behaviour whatsoever the response is either a success or an HTTP
500 error, because every failure — a failed label lookup included — is
caught by the except branch. -/
theorem wine_types_domain_and_handler_total :
    (∀ k : ℤ, (dictIndex wine_types k).isSome = true ↔ (k = 0 ∨ k = 1 ∨ k = 2)) ∧
    ∀ (m : Model) (f : WineFeatures),
      (∃ body logs, predict_wine m f = (HttpResponse.success body, logs)) ∨
      (∃ e logs, predict_wine m f = (HttpResponse.failure 500 e, logs)) := by
  constructor
  · intro k
    constructor
    · intro h
      by_contra hc
      push_neg at hc
      obtain ⟨h0, h1, h2⟩ := hc
      have e0 : ¬((0 : ℤ) = k) := fun he => h0 he.symm
      have e1 : ¬((1 : ℤ) = k) := fun he => h1 he.symm
      have e2 : ¬((2 : ℤ) = k) := fun he => h2 he.symm
      simp [dictIndex, wine_types, e0, e1, e2] at h
    · rintro (rfl | rfl | rfl) <;> rfl
  · intro m f
    cases htb : tryBody m f with
    | ok r =>
        exact Or.inl ⟨r, [(.info, "Recibiendo predicción para características"),
          (.info, "Predicción exitosa")], by simp [predict_wine, htb]⟩
    | error e =>
        exact Or.inr ⟨e, [(.info, "Recibiendo predicción para características"),
          (.error, "Error durante la predicción: " ++ e)], by simp [predict_wine, htb]⟩

/-- C2: a payload in which some required field is missing or not coercible
to a float fails validation, so every model receives the framework's 422
client-error response with no log entries — the handler never ran and the
model was never invoked. -/
theorem missing_or_uncoercible_field_422 (payload : List (String × Json)) (name : String)
    (hname : name ∈ requiredFields) (hfail : getField payload name = none) :
    validate payload = none ∧
      ∀ m : Model, handleRequest m payload =
        (HttpResponse.failure 422 "Unprocessable Entity", []) := by
  have hnone : validate payload = none := by
    by_contra hc
    obtain ⟨f, hf⟩ := Option.ne_none_iff_exists'.mp hc
    have := validate_fields_present payload f hf name hname
    rw [hfail] at this
    cases this
  exact ⟨hnone, fun m => by simp [handleRequest, hnone]⟩

/-- C2 witness: the spec's example — a payload omitting `proline` — gets
the 422 response and never reaches the model. -/
theorem missing_field_422_witness :
    validate missingProlinePayload = none ∧
      ∀ m : Model, handleRequest m missingProlinePayload =
        (HttpResponse.failure 422 "Unprocessable Entity", []) :=
  missing_or_uncoercible_field_422 missingProlinePayload "proline" (by decide) rfl

/-- C9: validation does not require exactly 13 fields: appending unknown
extra fields leaves validation succeeding and the whole response unchanged
— the prediction is computed from the 13 known fields only. -/
theorem extra_fields_ignored (p extra : List (String × Json)) (m : Model)
    (_hextra : ∀ name ∈ requiredFields, dictGet extra name = none)
    (hp : ∀ name ∈ requiredFields, (getField p name).isSome) :
    (validate (p ++ extra)).isSome = true ∧
      handleRequest m (p ++ extra) = handleRequest m p := by
  have hget : ∀ name ∈ requiredFields, getField (p ++ extra) name = getField p name := by
    intro name hname
    have hsome := hp name hname
    cases hd : dictGet p name with
    | none => simp [getField, hd] at hsome
    | some j => rw [getField, getField, dictGet_append_of_some p extra name j hd, hd]
  have hval : validate (p ++ extra) = validate p := validate_congr _ _ hget
  constructor
  · rw [hval]
    exact validate_isSome_of_present p hp
  · simp only [handleRequest, hval]

/-- C9 witness: the all-ones payload plus an unknown `vintage` field
validates and yields the same response as without it. -/
theorem extra_fields_ignored_witness :
    (validate (goodPayload ++ [("vintage", Json.num (.finite 1990))])).isSome = true ∧
      handleRequest constModel (goodPayload ++ [("vintage", Json.num (.finite 1990))]) =
        handleRequest constModel goodPayload :=
  extra_fields_ignored goodPayload [("vintage", Json.num (.finite 1990))] constModel
    (by decide) (by decide)

/-- C1: for every payload whose 13 required fields are all (finite) JSON
numbers, and any model meeting the scikit-learn contract, /predict answers
success with a prediction in {0,1,2} and a probability mapping of three
values, each in [0,1], summing to 1 within 1e-6. -/
theorem predict_valid_payload_ok (m : Model) (payload : List (String × Json))
    (hm : SklearnModel m)
    (hp : ∀ name ∈ requiredFields, ∃ q : ℚ,
      dictGet payload name = some (Json.num (.finite q))) :
    ∃ body logs, handleRequest m payload = (HttpResponse.success body, logs) ∧
      (body.prediction = 0 ∨ body.prediction = 1 ∨ body.prediction = 2) ∧
      body.probabilities.length = 3 ∧
      (∀ kv ∈ body.probabilities, 0 ≤ kv.2 ∧ kv.2 ≤ 1) ∧
      |(body.probabilities.map Prod.snd).sum - 1| ≤ 1 / 1000000 := by
  have hfin : ∀ name ∈ requiredFields,
      ∃ v, getField payload name = some v ∧ v.isFinite = true := by
    intro name hname
    obtain ⟨q, hq⟩ := hp name hname
    exact ⟨.finite q, by simp [getField, hq, coerceFloat], rfl⟩
  obtain ⟨f, hval, hvec⟩ := validate_finite_of_finite_fields payload hfin
  have hlen : (featureVector f).length = 13 := rfl
  obtain ⟨p, hpred⟩ := hm.predict_total _ hlen hvec
  obtain ⟨ps, hps⟩ := hm.proba_total _ hlen hvec
  have hmem := hm.predict_mem _ _ hpred
  obtain ⟨label, hlab⟩ : ∃ label, dictIndex wine_types p = some label := by
    rcases hmem with rfl | rfl | rfl <;> exact ⟨_, rfl⟩
  have htry : tryBody m f =
      .ok (PredictionResult.mk p (enumProbs ps) ("Vino clasificado como: " ++ label)) := by
    simp [tryBody, hpred, hps, hlab]
  refine ⟨PredictionResult.mk p (enumProbs ps) ("Vino clasificado como: " ++ label),
      [(.info, "Recibiendo predicción para características"), (.info, "Predicción exitosa")],
      ?_, hmem, ?_, ?_, ?_⟩
  · simp [handleRequest, hval, predict_wine, htry]
  · show (enumProbs ps).length = 3
    rw [enumProbs_length, hm.proba_len _ _ hps]
  · intro kv hkv
    have hsnd : kv.2 ∈ ps := by
      rw [← enumProbs_map_snd ps]
      exact List.mem_map_of_mem Prod.snd hkv
    exact hm.proba_bounds _ _ hps _ hsnd
  · show |((enumProbs ps).map Prod.snd).sum - 1| ≤ 1 / 1000000
    rw [enumProbs_map_snd, hm.proba_sum _ _ hps]
    norm_num

/-- C1 witness: the all-ones payload against the constant model. -/
theorem predict_valid_payload_ok_witness :
    ∃ body logs, handleRequest constModel goodPayload = (HttpResponse.success body, logs) ∧
      (body.prediction = 0 ∨ body.prediction = 1 ∨ body.prediction = 2) ∧
      body.probabilities.length = 3 ∧
      (∀ kv ∈ body.probabilities, 0 ≤ kv.2 ∧ kv.2 ≤ 1) ∧
      |(body.probabilities.map Prod.snd).sum - 1| ≤ 1 / 1000000 :=
  predict_valid_payload_ok constModel goodPayload sklearn_constModel (by
    intro name hname
    simp only [requiredFields, List.mem_cons, List.not_mem_nil, or_false] at hname
    rcases hname with rfl | rfl | rfl | rfl | rfl | rfl | rfl | rfl | rfl | rfl | rfl | rfl | rfl <;>
      exact ⟨1, rfl⟩)

/-- C10: validation performs no finiteness check — the payload whose
`alcohol` is the JSON literal `NaN` validates, the NaN value is passed on
to inference, and for any model meeting the scikit-learn contract (which
rejects non-finite input) the failure surfaces as a server error 500, not
as a client validation error 422. -/
theorem nan_passes_validation_then_500 (m : Model) (hm : SklearnModel m) :
    (∃ f, validate nanPayload = some f ∧ f.alcohol = FloatVal.nan) ∧
      ∃ e, handleRequest m nanPayload =
        (HttpResponse.failure 500 e,
         [(LogLevel.info, "Recibiendo predicción para características"),
          (LogLevel.error, "Error durante la predicción: " ++ e)]) := by
  have hval : validate nanPayload = some nanFeatures := rfl
  have hnan : ∃ v ∈ featureVector nanFeatures, v.isFinite = false :=
    ⟨.nan, List.mem_cons_self _ _, rfl⟩
  obtain ⟨e, he⟩ := hm.predict_reject (featureVector nanFeatures) hnan
  have htry : tryBody m nanFeatures = .error e := by simp [tryBody, he]
  refine ⟨⟨nanFeatures, hval, rfl⟩, e, ?_⟩
  simp [handleRequest, hval, predict_wine, htry]

/-- C10 witness: the constant model at the NaN payload. -/
theorem nan_passes_validation_then_500_witness :
    (∃ f, validate nanPayload = some f ∧ f.alcohol = FloatVal.nan) ∧
      ∃ e, handleRequest constModel nanPayload =
        (HttpResponse.failure 500 e,
         [(LogLevel.info, "Recibiendo predicción para características"),
          (LogLevel.error, "Error durante la predicción: " ++ e)]) :=
  nan_passes_validation_then_500 constModel sklearn_constModel
